import Mathlib

/-!
Verification of the include-gardener entry point (src/src/main.cpp) and of the
spec-described core components whose sources are not part of this repository
snapshot (File_Detector / Parser / dependency graph).  The first half embeds
init_options and main over an already-parsed command line; the second half
models reference resolution and graph accumulation from the specification.
-/

namespace IncludeGardener

/-- ASCII lower-casing of one character, as std tolower in the C locale used by
main.cpp lines 174-175: the letters with codes 65..90 map to codes 97..122,
every other character is unchanged. -/
def asciiLower (c : Char) : Char :=
  if 65 ≤ c.toNat ∧ c.toNat ≤ 90 then Char.ofNat (c.toNat + 32) else c

/-- The std transform applying tolower to every character of a string
(main.cpp lines 174-175). -/
def strToLower (s : String) : String :=
  String.mk (s.data.map asciiLower)

/-- The build-time macro _GARDENER_CONFIG_PATH used as the default config path
(main.cpp line 90); the option help text documents it as gardener.conf. -/
def GARDENER_CONFIG_PATH : String := "gardener.conf"

/-- The boost program_options variables map after command-line parsing, one
field per option registered by init_options (main.cpp lines 97-117).  A none
value means the option is absent from the command line; process_path collects
both the -P occurrences and the positional arguments. -/
structure VarMap where
  help : Bool
  version : Bool
  verbose : Bool
  include_path : Option (List String)
  out_file : Option String
  format : Option String
  process_path : Option (List String)
  exclude : Option (List String)
  recursive_limit : Option Int
  threads : Option Int
  language : Option String
  config : Option String
deriving DecidableEq

/-- The global opts struct of main.cpp lines 47-57. -/
structure Opts where
  no_threads : Int
  recursive_limit : Int
  language : String
  config_path : String
  format : String
  include_paths : List String
  process_paths : List String
  exclude : List String
  out_file : String
deriving DecidableEq

/-- Which message init_options emits when it returns without filling opts. -/
inductive InitMsg where
  /-- cout of the options description (main.cpp line 135). -/
  | helpText
  /-- cout of the version line (main.cpp line 140). -/
  | versionText
  /-- cerr of "No input provided!" followed by the options description
  (main.cpp line 146). -/
  | noInput
  /-- cerr of "Error: config file ... not found." (main.cpp lines 167-168). -/
  | configNotFound
  /-- cerr of the zero-thread-count error (main.cpp lines 187-189). -/
  | zeroThreads
  /-- cerr of "Unrecognized format: ..." (main.cpp lines 200-202). -/
  | badFormat
deriving DecidableEq

/-- Result of init_options: an early return with its code and message, or the
filled opts struct together with return value 0. -/
inductive InitResult where
  | err (code : Int) (msg : InitMsg)
  | ok (o : Opts)
deriving DecidableEq

/-- The config path that init_options checks and stores: the -c value when
present, else the built-in default (main.cpp lines 90 and 162-164). -/
def effectiveConfigPath (vm : VarMap) : String :=
  (vm.config).getD GARDENER_CONFIG_PATH

/-- The format whitelist of main.cpp lines 198-199. -/
def formatOk (f : String) : Bool :=
  f == "" || f == "dot" || f == "xml" || f == "graphml"

/-- The opts record holding the values in effect when init_options reaches its
final return 0 (main.cpp line 215): each field carries the command-line value
when the option is present, else the default assigned at lines 87-92; the
language value is additionally lower-cased (lines 172-176). -/
def mkOpts (vm : VarMap) : Opts :=
  { no_threads := (vm.threads).getD 2
    recursive_limit := (vm.recursive_limit).getD (-1)
    language := match vm.language with
      | some s => strToLower s
      | none => "c"
    config_path := effectiveConfigPath vm
    format := (vm.format).getD "dot"
    include_paths := (vm.include_path).getD []
    process_paths := (vm.process_path).getD []
    exclude := (vm.exclude).getD []
    out_file := (vm.out_file).getD "" }

/-- init_options (main.cpp lines 86-216) over an already-parsed variables map
and a filesystem-existence predicate for the config-file check of line 166.
The early returns appear in source order: help (line 136, code 1), version
(line 141, code -1), missing process path (line 147, code -1), config file not
found (line 169, code -1), a supplied thread count equal to 0 (line 190,
code -1), unrecognized format (line 203, code -1); otherwise opts is filled
and 0 is returned. -/
def initOptions (vm : VarMap) (fsExists : String → Bool) : InitResult :=
  if vm.help = true then .err 1 .helpText
  else if vm.version = true then .err (-1) .versionText
  else if vm.process_path = none then .err (-1) .noInput
  else if fsExists (effectiveConfigPath vm) = false then .err (-1) .configNotFound
  else if vm.threads = some 0 then .err (-1) .zeroThreads
  else if formatOk ((vm.format).getD "dot") = false then .err (-1) .badFormat
  else .ok (mkOpts vm)

/-- The arguments main passes to the File_Detector constructor (main.cpp
lines 77-79): the language whose detection rules are looked up in the config,
the exclude patterns, the process paths, and the recursion limit. -/
structure FDArgs where
  detectionLanguage : String
  exclude : List String
  process_paths : List String
  recursive_limit : Int
deriving DecidableEq

/-- One invocation of main (main.cpp lines 59-84) seen from outside: the return
value, whether Config::get_cfg ran (line 69), the File_Detector constructor
arguments when one was constructed (lines 77-79), whether detector.get() ran
(line 81), and whether main printed its unsupported-language error (line 72).
After line 81 the function body is only return 0: the Graph g declared at
line 60 is never written or read and main contains no serialization or output
writing code, which the always-false wroteOutput field records. -/
structure MainResult where
  retCode : Int
  configConstructed : Bool
  fileDetector : Option FDArgs
  detectorRan : Bool
  unsupportedLanguageError : Bool
  wroteOutput : Bool
deriving DecidableEq

/-- main (main.cpp lines 59-84): run init_options and pass a nonzero return
value through (lines 63-66); otherwise construct the Config (line 69), reject
an unsupported language with -1 (lines 71-74), otherwise construct the
File_Detector from the detection rules for opts.language, opts.exclude,
opts.process_paths and opts.recursive_limit (lines 77-79), run it to
completion (line 81) and return 0 (line 83). -/
def mainRun (vm : VarMap) (fsExists : String → Bool) (supports : String → Bool) :
    MainResult :=
  match initOptions vm fsExists with
  | .err c _ => ⟨c, false, none, false, false, false⟩
  | .ok o =>
    if supports o.language = false then
      ⟨-1, true, none, false, true, false⟩
    else
      ⟨0, true, some ⟨o.language, o.exclude, o.process_paths, o.recursive_limit⟩,
        true, false, false⟩

/-- Modelled from the spec: the filesystem view the Parser resolves against
(the Parser sources are not under src/): whether a path names a regular file,
and path canonicalization. -/
structure FS where
  isRegularFile : String → Bool
  canonical : String → String

/-- Modelled from the spec: appending a reference string to a candidate
directory. -/
def joinPath (d r : String) : String := d ++ "/" ++ r

/-- Outcome of resolving one extracted reference. -/
inductive Resolution where
  | resolved (canonicalPath : String)
  | unresolved (literal : String)
deriving DecidableEq

/-- Modelled from the spec: resolution of a quoted reference R extracted from a
file whose containing directory is dirOfF (the Parser sources are not under
src/).  The candidate directories are the containing directory first, then the
configured include-search-paths in configured order; the first candidate d for
which d + R is a regular file wins and the result is canonicalized; if no
candidate matches, the target is unresolved and keyed by the literal R. -/
def resolveQuoted (fs : FS) (dirOfF : String) (includePaths : List String)
    (R : String) : Resolution :=
  match (dirOfF :: includePaths).find? (fun d => fs.isRegularFile (joinPath d R)) with
  | some d => .resolved (fs.canonical (joinPath d R))
  | none => .unresolved R

/-- Modelled from the spec: one recorded occurrence of a directive, its raw
statement text and line number (the dependency-graph sources are not under
src/). -/
structure Occurrence where
  raw : String
  line : Nat
deriving DecidableEq

/-- Modelled from the spec: one extracted directive of one parsed file, as it
reaches the graph: source node key, target node key, and the occurrence
recorded on the edge. -/
structure EdgeRef where
  src : String
  tgt : String
  occ : Occurrence
deriving DecidableEq

/-- Modelled from the spec: the parse job for one scheduled file: the file's
own node key and the directive references its parse contributes to the
graph. -/
structure Job where
  file : String
  refs : List EdgeRef
deriving DecidableEq

/-- Modelled from the spec: one execution of the worker pool over a fixed job
list (the File_Detector and worker-pool sources are not under src/): at least
one worker thread, every job processed exactly once, and each job's graph
insertion atomic, so the only scheduling freedom is the order in which the
jobs' contributions land, an arbitrary permutation of the job list. -/
structure Execution (jobs : List Job) where
  threadCount : Nat
  one_le_threadCount : 1 ≤ threadCount
  order : List Job
  order_perm : order.Perm jobs

/-- Modelled from the spec: the multiset of directive records accumulated in
the graph after processing the jobs in the given order. -/
def edgeRecords (order : List Job) : Multiset EdgeRef :=
  ↑(order.flatMap Job.refs)

/-- Modelled from the spec: the set of node keys present in the finished
graph: every processed file's key plus every edge's source and target key. -/
def nodeKeys (order : List Job) : Finset String :=
  (order.flatMap fun j => j.file :: j.refs.flatMap fun r => [r.src, r.tgt]).toFinset

/-- Modelled from the spec: the multiplicity counter of the edge (s, t) in the
finished graph. -/
def multiplicity (order : List Job) (s t : String) : Nat :=
  Multiset.card ((edgeRecords order).filter fun r => r.src = s ∧ r.tgt = t)

/-- Modelled from the spec: the occurrence multiset recorded on the edge
(s, t) in the finished graph. -/
def occurrences (order : List Job) (s t : String) : Multiset Occurrence :=
  ((edgeRecords order).filter fun r => r.src = s ∧ r.tgt = t).map EdgeRef.occ

/-! Helper lemmas and concrete inputs. -/

/-- A filesystem on which every path exists. -/
def fsAll : String → Bool := fun _ => true

/-- A filesystem on which no path exists. -/
def fsNone : String → Bool := fun _ => false

/-- A config supporting every language name. -/
def supAll : String → Bool := fun _ => true

/-- A config supporting no language name. -/
def supNone : String → Bool := fun _ => false

/-- The command line consisting of a single positional process path. -/
def vmBase : VarMap :=
  { help := false, version := false, verbose := false, include_path := none,
    out_file := none, format := none, process_path := some ["proj"],
    exclude := none, recursive_limit := none, threads := none,
    language := none, config := none }

/-- vmBase with a worker thread count of 7 and two include paths. -/
def vmThreadsInc : VarMap :=
  { vmBase with threads := some 7, include_path := some ["inc1", "inc2"] }

/-- vmBase with the xml output format and an output file configured. -/
def vmSer : VarMap :=
  { vmBase with format := some "xml", out_file := some "graph.xml" }

/-- vmBase with a negative worker thread count. -/
def vmNegThreads : VarMap := { vmBase with threads := some (-3) }

/-- vmBase with a worker thread count of exactly 0. -/
def vmZero : VarMap := { vmBase with threads := some 0 }

/-- vmBase with an upper-case language name. -/
def vmUpper : VarMap := { vmBase with language := some "C" }

/-- The command line supplying no process path at all. -/
def vmEmpty : VarMap := { vmBase with process_path := none }

/-- vmBase with the help option set. -/
def vmHelp : VarMap := { vmBase with help := true }

/-- vmBase with the version option set. -/
def vmVer : VarMap := { vmBase with version := true }

/-- A parse job: file a.c contributing one edge a.c to b.h. -/
def jobA : Job := ⟨"a.c", [⟨"a.c", "b.h", ⟨"quoted b.h", 1⟩⟩]⟩

/-- A parse job: file b.h contributing one edge b.h to sys.h. -/
def jobB : Job := ⟨"b.h", [⟨"b.h", "sys.h", ⟨"system sys.h", 2⟩⟩]⟩

/-- A single-worker execution processing jobA then jobB. -/
def execSingle : Execution [jobA, jobB] :=
  ⟨1, le_refl 1, [jobA, jobB], List.Perm.refl _⟩

/-- An eight-worker execution whose contributions land as jobB then jobA. -/
def execOctet : Execution [jobA, jobB] :=
  ⟨8, by omega, [jobB, jobA], List.Perm.swap jobA jobB []⟩

/-- A filesystem view where c.h sits both next to the including file (in a/)
and in the include-search-path P1, and canonicalization prepends /canon/. -/
def fsLocal : FS :=
  ⟨fun s => s == "a/c.h" || s == "P1/c.h", fun s => "/canon/" ++ s⟩

lemma charOfNat_toNat_of_lower (n : Nat) (h1 : 97 ≤ n) (h2 : n ≤ 122) :
    (Char.ofNat n).toNat = n := by
  interval_cases n <;> rfl

lemma asciiLower_not_upper (c : Char) :
    ¬(65 ≤ (asciiLower c).toNat ∧ (asciiLower c).toNat ≤ 90) := by
  by_cases h : 65 ≤ c.toNat ∧ c.toNat ≤ 90
  · rw [asciiLower, if_pos h,
      charOfNat_toNat_of_lower (c.toNat + 32) (by omega) (by omega)]
    omega
  · rw [asciiLower, if_neg h]
    exact h

lemma strToLower_no_upper (s : String) :
    ∀ c ∈ (strToLower s).data, ¬(65 ≤ c.toNat ∧ c.toNat ≤ 90) := by
  intro c hc
  have hm : c ∈ s.data.map asciiLower := hc
  obtain ⟨d, _, rfl⟩ := List.mem_map.mp hm
  exact asciiLower_not_upper d

lemma find?_some_first {α : Type} (p : α → Bool) :
    ∀ (l : List α) (a : α), l.find? p = some a →
      ∃ pre post, l = pre ++ a :: post ∧ p a = true ∧ ∀ x ∈ pre, p x = false := by
  intro l
  induction l with
  | nil => intro a h; simp at h
  | cons b t ih =>
    intro a h
    by_cases hb : p b = true
    · rw [List.find?_cons_of_pos _ hb] at h
      cases h
      exact ⟨[], t, rfl, hb, by simp⟩
    · rw [List.find?_cons_of_neg _ (by simp [hb])] at h
      obtain ⟨pre, post, heq, hpa, hpre⟩ := ih a h
      refine ⟨b :: pre, post, by rw [heq, List.cons_append], hpa, ?_⟩
      intro x hx
      rcases List.mem_cons.mp hx with hx | hx
      · subst hx; simpa using hb
      · exact hpre x hx

lemma initOptions_err_code (vm : VarMap) (fsExists : String → Bool)
    (c : Int) (m : InitMsg) (h : initOptions vm fsExists = .err c m) :
    c = 1 ∨ c = -1 := by
  unfold initOptions at h
  split at h
  · cases h; left; rfl
  · split at h
    · cases h; right; rfl
    · split at h
      · cases h; right; rfl
      · split at h
        · cases h; right; rfl
        · split at h
          · cases h; right; rfl
          · split at h
            · cases h; right; rfl
            · cases h

/-- Two command lines agreeing everywhere except possibly on the include paths
and on the out-file drive main to the same result: neither field occurs in any
early-return condition of init_options, and main reads neither opts field. -/
lemma mainRun_ignores_include_and_out (hB vB wB : Bool)
    (i₁ i₂ : Option (List String)) (o₁ o₂ fmt : Option String)
    (pp ex : Option (List String)) (rl th : Option Int) (lang cfg : Option String)
    (fsExists supports : String → Bool) :
    mainRun ⟨hB, vB, wB, i₁, o₁, fmt, pp, ex, rl, th, lang, cfg⟩ fsExists supports =
    mainRun ⟨hB, vB, wB, i₂, o₂, fmt, pp, ex, rl, th, lang, cfg⟩ fsExists supports := by
  by_cases h1 : hB = true
  · simp [mainRun, initOptions, h1]
  · by_cases h2 : vB = true
    · simp [mainRun, initOptions, h1, h2]
    · by_cases h3 : pp = none
      · simp [mainRun, initOptions, h1, h2, h3]
      · by_cases h4 : fsExists (cfg.getD GARDENER_CONFIG_PATH) = false
        · simp [mainRun, initOptions, effectiveConfigPath, h1, h2, h3, h4]
        · by_cases h5 : th = some 0
          · simp [mainRun, initOptions, effectiveConfigPath, h1, h2, h3, h4, h5]
          · by_cases h6 : formatOk (fmt.getD "dot") = false
            · simp [mainRun, initOptions, effectiveConfigPath, h1, h2, h3, h4, h5, h6]
            · simp [mainRun, initOptions, mkOpts, effectiveConfigPath,
                h1, h2, h3, h4, h5, h6]

/-- On a successful option initialization the result is exactly the filled
opts record and none of the early-return conditions held. -/
lemma initOptions_ok_inv (vm : VarMap) (fsExists : String → Bool) (o : Opts)
    (h : initOptions vm fsExists = .ok o) :
    o = mkOpts vm ∧ vm.help = false ∧ vm.version = false ∧
    vm.process_path ≠ none ∧ fsExists (effectiveConfigPath vm) = true ∧
    vm.threads ≠ some 0 ∧ formatOk ((vm.format).getD "dot") = true := by
  unfold initOptions at h
  split at h
  next => cases h
  next h1 =>
    split at h
    next => cases h
    next h2 =>
      split at h
      next => cases h
      next h3 =>
        split at h
        next => cases h
        next h4 =>
          split at h
          next => cases h
          next h5 =>
            split at h
            next => cases h
            next h6 =>
              cases h
              exact ⟨rfl, by simpa using h1, by simpa using h2, h3,
                by simpa using h4, h5, by simpa using h6⟩

/-- Two command lines agreeing everywhere except possibly on the include
paths, on the out-file and on the thread count, the latter two thread counts
both different from a supplied 0, drive main to the same result. -/
lemma mainRun_threads_include_out (hB vB wB : Bool)
    (i₁ i₂ : Option (List String)) (o₁ o₂ fmt : Option String)
    (pp ex : Option (List String)) (rl : Option Int) (th₁ th₂ : Option Int)
    (lang cfg : Option String) (fsExists supports : String → Bool)
    (ht₁ : th₁ ≠ some 0) (ht₂ : th₂ ≠ some 0) :
    mainRun ⟨hB, vB, wB, i₁, o₁, fmt, pp, ex, rl, th₁, lang, cfg⟩ fsExists supports =
    mainRun ⟨hB, vB, wB, i₂, o₂, fmt, pp, ex, rl, th₂, lang, cfg⟩ fsExists supports := by
  by_cases h1 : hB = true
  · simp [mainRun, initOptions, h1]
  · by_cases h2 : vB = true
    · simp [mainRun, initOptions, h1, h2]
    · by_cases h3 : pp = none
      · simp [mainRun, initOptions, h1, h2, h3]
      · by_cases h4 : fsExists (cfg.getD GARDENER_CONFIG_PATH) = false
        · simp [mainRun, initOptions, effectiveConfigPath, h1, h2, h3, h4]
        · by_cases h6 : formatOk (fmt.getD "dot") = false
          · simp [mainRun, initOptions, effectiveConfigPath, h1, h2, h3, h4,
              ht₁, ht₂, h6]
          · simp [mainRun, initOptions, mkOpts, effectiveConfigPath,
              h1, h2, h3, h4, ht₁, ht₂, h6]

/-! Claim theorems. -/

/-- C1: every fatal configuration error aborts the run before any traversal
starts.  A config file that cannot be found makes init_options return -1, so
main returns -1 before even the Config is constructed; an unsupported language
makes main print its error and return -1 after the Config lookup; in both
cases no File_Detector is constructed and the detector never runs, so no graph
content is produced. -/
theorem c1_fatal_config_error_aborts (vm : VarMap)
    (fsExists supports : String → Bool) :
    (initOptions vm fsExists = .err (-1) .configNotFound →
      (mainRun vm fsExists supports).retCode = -1 ∧
      (mainRun vm fsExists supports).configConstructed = false ∧
      (mainRun vm fsExists supports).fileDetector = none ∧
      (mainRun vm fsExists supports).detectorRan = false) ∧
    (∀ o, initOptions vm fsExists = .ok o → supports o.language = false →
      (mainRun vm fsExists supports).retCode = -1 ∧
      (mainRun vm fsExists supports).unsupportedLanguageError = true ∧
      (mainRun vm fsExists supports).fileDetector = none ∧
      (mainRun vm fsExists supports).detectorRan = false) := by
  constructor
  · intro h
    refine ⟨?_, ?_, ?_, ?_⟩ <;> simp [mainRun, h]
  · intro o h hs
    refine ⟨?_, ?_, ?_, ?_⟩ <;> simp [mainRun, h, hs]

/-- Concrete run of c1: with the config file missing main returns -1 and
constructs no File_Detector; with the config present but the language
unsupported main returns -1 and never runs a detector. -/
theorem c1_witness :
    (mainRun vmBase fsNone supAll).retCode = -1 ∧
    (mainRun vmBase fsNone supAll).fileDetector = none ∧
    (mainRun vmBase fsAll supNone).retCode = -1 ∧
    (mainRun vmBase fsAll supNone).detectorRan = false := by
  have h1 := (c1_fatal_config_error_aborts vmBase fsNone supAll).1 rfl
  have h2 := (c1_fatal_config_error_aborts vmBase fsAll supNone).2
    (mkOpts vmBase) rfl rfl
  exact ⟨h1.1, h1.2.2.1, h2.1, h2.2.2.2⟩

/-- C5: on every successful option initialization the language that reaches
the supports_language lookup in main is the lower-cased form of the supplied
name (or the all-lower-case default "c"), so the lookup never receives a name
containing an upper-case ASCII letter (code 65 to 90). -/
theorem c5_language_lowercased (vm : VarMap) (fsExists : String → Bool) :
    ∀ o, initOptions vm fsExists = .ok o →
      (vm.language = none → o.language = "c") ∧
      (∀ s, vm.language = some s → o.language = strToLower s) ∧
      ∀ c ∈ o.language.data, ¬(65 ≤ c.toNat ∧ c.toNat ≤ 90) := by
  intro o hok
  obtain ⟨ho, -⟩ := initOptions_ok_inv vm fsExists o hok
  subst ho
  refine ⟨?_, ?_, ?_⟩
  · intro h; simp [mkOpts, h]
  · intro s h; simp [mkOpts, h]
  · intro c hc
    cases hl : vm.language with
    | none =>
      rw [show (mkOpts vm).language = "c" from by simp [mkOpts, hl]] at hc
      have : c = 'c' := by simpa using hc
      subst this
      decide
    | some s =>
      rw [show (mkOpts vm).language = strToLower s from by simp [mkOpts, hl]] at hc
      exact strToLower_no_upper s c hc

/-- Concrete run of c5: supplying the language name C stores strToLower
applied to C, which is the supported lower-case name c. -/
theorem c5_witness :
    (mkOpts vmUpper).language = strToLower "C" ∧ strToLower "C" = "c" :=
  ⟨(c5_language_lowercased vmUpper fsAll (mkOpts vmUpper) rfl).2.1 "C" rfl,
    by decide⟩

/-- C8: when the threads, recursive-limit, language, format and out-file
options are all absent, a successful option initialization leaves exactly the
defaults of main.cpp lines 87-92 in force: worker thread count 2, recursion
limit -1 (unlimited), language "c", output format "dot" and an empty
output-file name, and these are the values in the opts record the run then
uses. -/
theorem c8_defaults (vm : VarMap) (fsExists : String → Bool)
    (ht : vm.threads = none) (hr : vm.recursive_limit = none)
    (hl : vm.language = none) (hf : vm.format = none)
    (ho : vm.out_file = none) :
    ∀ o, initOptions vm fsExists = .ok o →
      o.no_threads = 2 ∧ o.recursive_limit = -1 ∧ o.language = "c" ∧
      o.format = "dot" ∧ o.out_file = "" := by
  intro o hok
  obtain ⟨hoe, -⟩ := initOptions_ok_inv vm fsExists o hok
  subst hoe
  simp [mkOpts, ht, hr, hl, hf, ho]

/-- Concrete run of c8: a command line carrying only a process path
initializes successfully with all five defaults. -/
theorem c8_witness :
    (mkOpts vmBase).no_threads = 2 ∧ (mkOpts vmBase).recursive_limit = -1 ∧
    (mkOpts vmBase).language = "c" ∧ (mkOpts vmBase).format = "dot" ∧
    (mkOpts vmBase).out_file = "" :=
  c8_defaults vmBase fsAll rfl rfl rfl rfl rfl (mkOpts vmBase) rfl

/-- C9: when no process path is supplied (and neither informational option is
present), init_options prints "No input provided!" with the usage description
(the noInput message) and returns -1, and main passes -1 through without
constructing the Config or the File_Detector and without running any
traversal. -/
theorem c9_no_input_aborts (vm : VarMap) (fsExists supports : String → Bool)
    (hh : vm.help = false) (hv : vm.version = false)
    (hp : vm.process_path = none) :
    initOptions vm fsExists = .err (-1) .noInput ∧
    (mainRun vm fsExists supports).retCode = -1 ∧
    (mainRun vm fsExists supports).configConstructed = false ∧
    (mainRun vm fsExists supports).fileDetector = none ∧
    (mainRun vm fsExists supports).detectorRan = false := by
  have h : initOptions vm fsExists = .err (-1) .noInput := by
    simp [initOptions, hh, hv, hp]
  refine ⟨h, ?_, ?_, ?_, ?_⟩ <;> simp [mainRun, h]

/-- Concrete run of c9: an empty command line yields the noInput error and a
-1 return from main. -/
theorem c9_witness :
    initOptions vmEmpty fsAll = .err (-1) .noInput ∧
    (mainRun vmEmpty fsAll supAll).retCode = -1 := by
  have h := c9_no_input_aborts vmEmpty fsAll supAll rfl rfl rfl
  exact ⟨h.1, h.2.1⟩

/-- C10: the informational options terminate the process without a scan:
help makes init_options and main return 1, version makes them return -1, both
non-zero and neither running the detector; and main returns 0 only on a path
where the detector actually ran to completion. -/
theorem c10_info_options_and_zero (vm : VarMap)
    (fsExists supports : String → Bool) :
    (vm.help = true →
      initOptions vm fsExists = .err 1 .helpText ∧
      (mainRun vm fsExists supports).retCode = 1 ∧
      (mainRun vm fsExists supports).detectorRan = false) ∧
    (vm.help = false → vm.version = true →
      initOptions vm fsExists = .err (-1) .versionText ∧
      (mainRun vm fsExists supports).retCode = -1 ∧
      (mainRun vm fsExists supports).detectorRan = false) ∧
    ((mainRun vm fsExists supports).retCode = 0 →
      (mainRun vm fsExists supports).detectorRan = true) := by
  refine ⟨?_, ?_, ?_⟩
  · intro hh
    have h : initOptions vm fsExists = .err 1 .helpText := by
      simp [initOptions, hh]
    exact ⟨h, by simp [mainRun, h], by simp [mainRun, h]⟩
  · intro hh hv
    have h : initOptions vm fsExists = .err (-1) .versionText := by
      simp [initOptions, hh, hv]
    exact ⟨h, by simp [mainRun, h], by simp [mainRun, h]⟩
  · intro h0
    rcases hi : initOptions vm fsExists with ⟨c, m⟩ | o
    · have hc : (mainRun vm fsExists supports).retCode = c := by
        simp [mainRun, hi]
      rw [hc] at h0
      rcases initOptions_err_code vm fsExists c m hi with h1 | h1 <;> omega
    · by_cases hs : supports o.language = false
      · have hc : (mainRun vm fsExists supports).retCode = -1 := by
          simp [mainRun, hi, hs]
        rw [hc] at h0
        omega
      · simp [mainRun, hi, hs]

/-- Concrete run of c10: the help option alone makes main return 1, the
version option alone makes it return -1. -/
theorem c10_witness :
    (mainRun vmHelp fsAll supAll).retCode = 1 ∧
    (mainRun vmVer fsAll supAll).retCode = -1 :=
  ⟨((c10_info_options_and_zero vmHelp fsAll supAll).1 rfl).2.1,
    ((c10_info_options_and_zero vmVer fsAll supAll).2.1 rfl rfl).2.1⟩

/-- C2 counterexample: two command lines that differ exactly in the worker
thread count and in the include-search-paths drive main to bit-identical
behavior - the same return code, the same File_Detector constructor arguments
and the same completed run - so neither of those two parameters influences the
File_Detector run main starts: main.cpp lines 77-79 pass only the detection
rules, the exclude patterns, the process paths and the recursion limit, never
opts.no_threads or opts.include_paths, and main constructs no Parser. -/
theorem c2_counterexample :
    vmThreadsInc.threads ≠ vmBase.threads ∧
    vmThreadsInc.include_path ≠ vmBase.include_path ∧
    (mainRun vmThreadsInc fsAll supAll).detectorRan = true ∧
    mainRun vmThreadsInc fsAll supAll = mainRun vmBase fsAll supAll :=
  ⟨by decide, by decide, rfl, rfl⟩

/-- C2 (amended): the process paths, exclude patterns, recursion limit and
language supplied by the caller are passed into and drive the scanning run -
they are exactly the File_Detector constructor arguments - while the worker
thread count (beyond its not-zero validation in init_options) and the
include-search-paths are parsed and stored but never passed into the run:
changing them, keeping the thread count different from a supplied 0, leaves
main's entire behavior unchanged. -/
theorem c2_amended_run_parameters (vm : VarMap)
    (fsExists supports : String → Bool) :
    (∀ o, initOptions vm fsExists = .ok o → supports o.language = true →
      (mainRun vm fsExists supports).fileDetector =
        some ⟨o.language, o.exclude, o.process_paths, o.recursive_limit⟩) ∧
    (∀ j i, j ≠ some 0 → vm.threads ≠ some 0 →
      mainRun { vm with threads := j, include_path := i } fsExists supports =
      mainRun vm fsExists supports) := by
  constructor
  · intro o hok hs
    simp [mainRun, hok, hs]
  · intro j i hj hv
    cases vm with
    | mk hB vB wB ip og fm pp ex rl th lg cf =>
      exact mainRun_threads_include_out hB vB wB i ip og og fm pp ex rl j th
        lg cf fsExists supports hj hv

/-- Concrete run of c2_amended_run_parameters: the File_Detector arguments of
a default run, and the unchanged behavior under a thread count of 7 with two
include paths added. -/
theorem c2_witness :
    (mainRun vmBase fsAll supAll).fileDetector =
      some ⟨"c", [], ["proj"], -1⟩ ∧
    mainRun vmThreadsInc fsAll supAll = mainRun vmBase fsAll supAll :=
  ⟨(c2_amended_run_parameters vmBase fsAll supAll).1 (mkOpts vmBase) rfl rfl,
    (c2_amended_run_parameters vmBase fsAll supAll).2 (some 7)
      (some ["inc1", "inc2"]) (by decide) (by decide)⟩

/-- C3 counterexample: with output format xml and an out-file configured the
scan run completes - detector.get() returns and main returns 0 - yet main
writes no serialized output at all: after line 81 the body of main is only
return 0, the Graph g declared at line 60 is never retrieved or populated, and
main.cpp contains no rendering or writing of any graph format. -/
theorem c3_counterexample :
    (mainRun vmSer fsAll supAll).detectorRan = true ∧
    (mainRun vmSer fsAll supAll).retCode = 0 ∧
    (mainRun vmSer fsAll supAll).wroteOutput = false :=
  ⟨rfl, rfl, rfl⟩

/-- C3 (amended): after the scanning run completes main immediately returns 0
without retrieving any graph and without handing anything to a serialization
layer: no path of main writes output, every run that completes its scan
returns 0, and the configured out-file never influences main's behavior (the
format and out-file options are validated by init_options but unused). -/
theorem c3_amended_no_serialization (vm : VarMap)
    (fsExists supports : String → Bool) :
    (mainRun vm fsExists supports).wroteOutput = false ∧
    ((mainRun vm fsExists supports).detectorRan = true →
      (mainRun vm fsExists supports).retCode = 0) ∧
    (∀ ofile, mainRun { vm with out_file := ofile } fsExists supports =
      mainRun vm fsExists supports) := by
  refine ⟨?_, ?_, ?_⟩
  · rcases hi : initOptions vm fsExists with ⟨c, m⟩ | o
    · simp [mainRun, hi]
    · by_cases hs : supports o.language = false <;> simp [mainRun, hi, hs]
  · rcases hi : initOptions vm fsExists with ⟨c, m⟩ | o
    · simp [mainRun, hi]
    · by_cases hs : supports o.language = false <;> simp [mainRun, hi, hs]
  · intro ofile
    cases vm with
    | mk hB vB wB ip og fm pp ex rl th lg cf =>
      exact mainRun_ignores_include_and_out hB vB wB ip ip ofile og fm pp ex
        rl th lg cf fsExists supports

/-- Concrete run of c3_amended_no_serialization: a completed default run
returns 0, writes nothing, and is unchanged by configuring an out-file. -/
theorem c3_witness :
    (mainRun vmBase fsAll supAll).wroteOutput = false ∧
    (mainRun vmBase fsAll supAll).retCode = 0 ∧
    mainRun { vmBase with out_file := some "g.dot" } fsAll supAll =
      mainRun vmBase fsAll supAll := by
  have h := c3_amended_no_serialization vmBase fsAll supAll
  exact ⟨h.1, h.2.1 rfl, h.2.2 (some "g.dot")⟩

/-- C4 counterexample: the thread count -3 is below 1, yet option
initialization does not reject it: the check at main.cpp line 186 compares
against 0 only, so init_options succeeds, stores -3 as the worker thread
count, and the run proceeds and completes. -/
theorem c4_counterexample :
    initOptions vmNegThreads fsAll = .ok (mkOpts vmNegThreads) ∧
    (mkOpts vmNegThreads).no_threads = -3 ∧
    (mainRun vmNegThreads fsAll supAll).retCode = 0 ∧
    (mainRun vmNegThreads fsAll supAll).detectorRan = true :=
  ⟨rfl, rfl, rfl, rfl⟩

/-- C4 (amended): the worker thread count defaults to 2 when the option is
absent, and option initialization rejects only a supplied count of exactly 0
(no successful initialization exists then); any other supplied value,
including negative ones, is accepted and stored unchanged, so a successful
initialization always stores the supplied value (or the default 2) and that
stored count is never 0. -/
theorem c4_amended_thread_count (vm : VarMap) (fsExists : String → Bool) :
    (vm.threads = none → ∀ o, initOptions vm fsExists = .ok o →
      o.no_threads = 2) ∧
    (vm.threads = some 0 → ∀ o, initOptions vm fsExists ≠ .ok o) ∧
    (∀ o, initOptions vm fsExists = .ok o →
      o.no_threads = (vm.threads).getD 2 ∧ o.no_threads ≠ 0) := by
  refine ⟨?_, ?_, ?_⟩
  · intro h o hok
    obtain ⟨hoe, -⟩ := initOptions_ok_inv vm fsExists o hok
    subst hoe
    simp [mkOpts, h]
  · intro h o hok
    obtain ⟨-, -, -, -, -, hth, -⟩ := initOptions_ok_inv vm fsExists o hok
    exact hth h
  · intro o hok
    obtain ⟨hoe, -, -, -, -, hth, -⟩ := initOptions_ok_inv vm fsExists o hok
    subst hoe
    refine ⟨rfl, ?_⟩
    rcases h : vm.threads with _ | t
    · simp [mkOpts, h]
    · have htz : t ≠ 0 := fun ht => hth (by rw [h, ht])
      simp [mkOpts, h, htz]

/-- Concrete run of c4_amended_thread_count: an absent option stores the
default 2, and a supplied 0 makes initialization fail. -/
theorem c4_witness :
    (mkOpts vmBase).no_threads = 2 ∧
    initOptions vmZero fsAll ≠ .ok (mkOpts vmZero) :=
  ⟨(c4_amended_thread_count vmBase fsAll).1 rfl (mkOpts vmBase) rfl,
    (c4_amended_thread_count vmZero fsAll).2.1 rfl (mkOpts vmZero)⟩

/-- C6: for a fixed job list, any two executions of the worker pool - whatever
their thread counts and however their atomic contributions are interleaved -
accumulate exactly the same graph content: the same node-key set, the same
multiset of edge records, and for every ordered pair of keys the same
multiplicity and the same occurrence multiset. -/
theorem c6_content_thread_and_schedule_invariant (jobs : List Job)
    (e₁ e₂ : Execution jobs) :
    nodeKeys e₁.order = nodeKeys e₂.order ∧
    edgeRecords e₁.order = edgeRecords e₂.order ∧
    ∀ s t, multiplicity e₁.order s t = multiplicity e₂.order s t ∧
      occurrences e₁.order s t = occurrences e₂.order s t := by
  have hp : e₁.order.Perm e₂.order := e₁.order_perm.trans e₂.order_perm.symm
  have hrec : edgeRecords e₁.order = edgeRecords e₂.order :=
    Multiset.coe_eq_coe.mpr (hp.flatMap_right Job.refs)
  refine ⟨List.toFinset_eq_of_perm _ _ (hp.flatMap_right _), hrec, ?_⟩
  intro s t
  constructor
  · simp only [multiplicity, hrec]
  · simp only [occurrences, hrec]

/-- Concrete run of c6: a one-worker execution and an eight-worker execution
with the opposite landing order agree on node keys and on the multiplicity of
the a.c to b.h edge. -/
theorem c6_witness :
    nodeKeys [jobA, jobB] = nodeKeys [jobB, jobA] ∧
    multiplicity [jobA, jobB] "a.c" "b.h" =
      multiplicity [jobB, jobA] "a.c" "b.h" := by
  have h := c6_content_thread_and_schedule_invariant [jobA, jobB]
    execSingle execOctet
  exact ⟨h.1, (h.2.2 "a.c" "b.h").1⟩

/-- C7: resolution of a quoted reference R from a file whose containing
directory is dirOfF tries the containing directory first and then the
include-search-paths in configured order.  The containing directory wins
whenever dirOfF + R is a regular file, even when search paths also hold R; a
resolved result is always the canonicalization of d + R for the first
candidate directory d holding R, every earlier candidate failing; and the
target is unresolved exactly when no candidate directory holds R. -/
theorem c7_quoted_resolution (fs : FS) (dirOfF : String)
    (includePaths : List String) (R : String) :
    (fs.isRegularFile (joinPath dirOfF R) = true →
      resolveQuoted fs dirOfF includePaths R =
        .resolved (fs.canonical (joinPath dirOfF R))) ∧
    (∀ c, resolveQuoted fs dirOfF includePaths R = .resolved c →
      ∃ pre d post, dirOfF :: includePaths = pre ++ d :: post ∧
        fs.isRegularFile (joinPath d R) = true ∧
        c = fs.canonical (joinPath d R) ∧
        ∀ e ∈ pre, fs.isRegularFile (joinPath e R) = false) ∧
    (resolveQuoted fs dirOfF includePaths R = .unresolved R ↔
      ∀ d ∈ dirOfF :: includePaths, fs.isRegularFile (joinPath d R) = false) := by
  refine ⟨?_, ?_, ?_⟩
  · intro h
    rw [resolveQuoted, List.find?_cons]
    simp only [h]
  · intro c hc
    rw [resolveQuoted] at hc
    rcases hf : (dirOfF :: includePaths).find?
        (fun d => fs.isRegularFile (joinPath d R)) with _ | d
    · rw [hf] at hc
      cases hc
    · rw [hf] at hc
      cases hc
      obtain ⟨pre, post, heq, hpd, hpre⟩ := find?_some_first _ _ _ hf
      exact ⟨pre, d, post, heq, hpd, rfl, hpre⟩
  · constructor
    · intro h d hd
      rw [resolveQuoted] at h
      rcases hf : (dirOfF :: includePaths).find?
          (fun e => fs.isRegularFile (joinPath e R)) with _ | d'
      · have := List.find?_eq_none.mp hf d hd
        simpa using this
      · rw [hf] at h
        cases h
    · intro h
      rw [resolveQuoted]
      have hf : (dirOfF :: includePaths).find?
          (fun d => fs.isRegularFile (joinPath d R)) = none :=
        List.find?_eq_none.mpr (fun x hx => by simp [h x hx])
      rw [hf]

/-- Concrete run of c7: a quoted c.h resolves to the copy next to the
including file even though the search path P1 also holds a c.h. -/
theorem c7_witness :
    resolveQuoted fsLocal "a" ["P1"] "c.h" =
      .resolved (fsLocal.canonical (joinPath "a" "c.h")) :=
  (c7_quoted_resolution fsLocal "a" ["P1"] "c.h").1 rfl

end IncludeGardener
